import Mathlib

/-!
Shallow embedding of the json-q-engine repository (src/json_rule_engine):
core.py (the Dependencies aggregate) and evaluator.py (the RuleEngine
JsonLogic interpreter).

Python values are modelled by the inductive type Value, Python exceptions
by PyErr, and every fallible operation returns Except PyErr Value.
Python int is modelled as Int and Python float as Rat; the numeric facts
verified here involve only small decimal values, on which IEEE binary64
arithmetic agrees with exact rational arithmetic.
-/

inductive Value where
  | null
  | bool (b : Bool)
  | int (n : Int)
  | float (q : Rat)
  | str (s : String)
  | list (xs : List Value)
  | dict (kvs : List (String × Value))

inductive PyErr where
  | valueError
  | typeError
  | zeroDivisionError
  | nameError
  | indexError
deriving Repr, DecidableEq

/-- Python truthiness bool(v): None, False, 0, 0.0, "", [] and a dict
with no keys are falsy; everything else is truthy. -/
def truthy : Value → Bool
  | .null => false
  | .bool b => b
  | .int n => n != 0
  | .float q => q != 0
  | .str s => s != ""
  | .list xs => !xs.isEmpty
  | .dict kvs => !kvs.isEmpty

/-- Models isinstance(v, (int, float)): in Python bool is a subclass of
int, so booleans count as numeric here. -/
def isPyNum : Value → Bool
  | .bool _ => true
  | .int _ => true
  | .float _ => true
  | _ => false

/-- The numeric value of a Python number (bool, int or float). -/
def numValue? : Value → Option Rat
  | .bool b => some (if b then 1 else 0)
  | .int n => some (n : Rat)
  | .float q => some q
  | _ => none

/-- Models the Python runtime type of a value, as compared by
type(a) == type(b) in RuleEngine._apply_op for the strict operators. -/
inductive PyType where
  | noneT
  | boolT
  | intT
  | floatT
  | strT
  | listT
  | dictT
deriving Repr, DecidableEq

def pyType : Value → PyType
  | .null => .noneT
  | .bool _ => .boolT
  | .int _ => .intT
  | .float _ => .floatT
  | .str _ => .strT
  | .list _ => .listT
  | .dict _ => .dictT

/-- Whether a value is hashable in Python: lists and dicts are not, all
scalar values are. -/
def hashable : Value → Bool
  | .list _ => false
  | .dict _ => false
  | _ => true

def pyIsNull : Value → Bool
  | .null => true
  | _ => false

def isStr : Value → Bool
  | .str _ => true
  | _ => false

/- ## The Python builtin float() on strings -/

def natOfDigits (cs : List Char) : Nat :=
  cs.foldl (fun n c => 10 * n + (c.toNat - 48)) 0

def allDigits (cs : List Char) : Bool :=
  cs.all (fun c => c.isDigit)

/-- Split a character list at the first exponent marker e or E. -/
def breakAtExp : List Char → Option (List Char × List Char)
  | [] => none
  | c :: rest =>
    if c = 'e' ∨ c = 'E' then some ([], rest)
    else match breakAtExp rest with
      | some (m, e) => some (c :: m, e)
      | none => none

/-- Split a character list at the first dot. -/
def breakAtDot : List Char → Option (List Char × List Char)
  | [] => none
  | c :: rest =>
    if c = '.' then some ([], rest)
    else match breakAtDot rest with
      | some (m, e) => some (c :: m, e)
      | none => none

/-- Strip one optional leading sign, returning whether it was a minus. -/
def splitSign : List Char → Bool × List Char
  | '-' :: rest => (true, rest)
  | '+' :: rest => (false, rest)
  | cs => (false, cs)

def parseMantissa (cs : List Char) : Option Rat :=
  match breakAtDot cs with
  | none =>
    if cs ≠ [] ∧ allDigits cs then some ((natOfDigits cs : Int) : Rat) else none
  | some (ip, fp) =>
    if (ip ≠ [] ∨ fp ≠ []) ∧ allDigits ip ∧ allDigits fp ∧ breakAtDot fp = none then
      some (((natOfDigits (ip ++ fp) : Int) : Rat) / ((10 : Rat) ^ fp.length))
    else none

def parseExp (cs : List Char) : Option Int :=
  let sd := splitSign cs
  if sd.2 ≠ [] ∧ allDigits sd.2 then
    some (if sd.1 then -((natOfDigits sd.2 : Int)) else (natOfDigits sd.2 : Int))
  else none

def applyExpQ (q : Rat) (e : Int) : Rat :=
  if 0 ≤ e then q * (10 : Rat) ^ e.toNat else q / (10 : Rat) ^ (-e).toNat

/-- Strip leading and trailing whitespace from a character list. -/
def trimChars (cs : List Char) : List Char :=
  ((cs.dropWhile Char.isWhitespace).reverse.dropWhile Char.isWhitespace).reverse

/-- Models the Python builtin float() applied to a string: surrounding
whitespace is stripped, then an optional sign, a decimal mantissa with at
most one dot, and an optional exponent part are accepted.  (The special
forms inf and nan and underscore digit separators, which no verified
claim touches, are not modelled and parse as failures.) -/
def parseFloat (s : String) : Option Rat :=
  let cs := trimChars s.data
  let sd := splitSign cs
  let core :=
    match breakAtExp sd.2 with
    | none => parseMantissa sd.2
    | some (m, e) => do
      let q ← parseMantissa m
      let ex ← parseExp e
      pure (applyExpQ q ex)
  core.map (fun q => if sd.1 then -q else q)

/- ## Python equality == (soft structural equality with numeric cross-kind) -/

def lookupV : List (String × Value) → String → Option Value
  | [], _ => none
  | (k, v) :: rest, key => if k = key then some v else lookupV rest key

mutual

/-- Models the Python operator == on the Value domain: None equals only
None, booleans/ints/floats compare by numeric value (True == 1 in
Python), strings compare exactly, lists elementwise, dicts by key set and
value equality. -/
def pyEq : Value → Value → Bool
  | .null, .null => true
  | .bool a, .bool b => a == b
  | .bool a, .int n => (if a then (1 : Int) else 0) == n
  | .bool a, .float q => (if a then (1 : Rat) else 0) == q
  | .int n, .bool b => n == (if b then (1 : Int) else 0)
  | .int m, .int n => m == n
  | .int m, .float q => ((m : Rat)) == q
  | .float q, .bool b => q == (if b then (1 : Rat) else 0)
  | .float q, .int n => q == ((n : Rat))
  | .float p, .float q => p == q
  | .str s, .str t => s == t
  | .list xs, .list ys => pyEqList xs ys
  | .dict xs, .dict ys => xs.length == ys.length && pyEqDictSub xs ys
  | _, _ => false

def pyEqList : List Value → List Value → Bool
  | [], [] => true
  | x :: xs, y :: ys => pyEq x y && pyEqList xs ys
  | _, _ => false

def pyEqDictSub : List (String × Value) → List (String × Value) → Bool
  | [], _ => true
  | (k, v) :: rest, ys =>
    (match lookupV ys k with
     | some w => pyEq v w
     | none => false) && pyEqDictSub rest ys

end

/- ## Python ordering < (used by the builtins min and max) -/

mutual

/-- Models the Python operator < as used by min()/max(): numbers compare
numerically, strings lexicographically, lists lexicographically; any
other combination raises TypeError. -/
def pyLt (a b : Value) : Except PyErr Bool :=
  match numValue? a, numValue? b with
  | some x, some y => .ok (decide (x < y))
  | _, _ =>
    match a, b with
    | .str s, .str t => .ok (decide (s < t))
    | .list xs, .list ys => pyListLt xs ys
    | _, _ => .error .typeError

def pyListLt : List Value → List Value → Except PyErr Bool
  | [], [] => .ok false
  | [], _ :: _ => .ok true
  | _ :: _, [] => .ok false
  | x :: xs, y :: ys => if pyEq x y then pyListLt xs ys else pyLt x y

end

/- ## Python str() and repr() string forms -/

mutual

/-- Models the Python builtin repr() on the Value domain (numeric
formatting is modelled up to the exact decimal rendering, which no
verified claim depends on). -/
def pyRepr : Value → String
  | .null => "None"
  | .bool b => if b then "True" else "False"
  | .int n => toString n
  | .float q => toString q
  | .str s => "\x27" ++ s ++ "\x27"
  | .list xs => "[" ++ pyReprList xs ++ "]"
  | .dict kvs => "\x7b" ++ pyReprDict kvs ++ "\x7d"

def pyReprList : List Value → String
  | [] => ""
  | [x] => pyRepr x
  | x :: xs => pyRepr x ++ ", " ++ pyReprList xs

def pyReprDict : List (String × Value) → String
  | [] => ""
  | [(k, v)] => "\x27" ++ k ++ "\x27: " ++ pyRepr v
  | (k, v) :: rest => "\x27" ++ k ++ "\x27: " ++ pyRepr v ++ ", " ++ pyReprDict rest

end

/-- Models the Python builtin str(): the identity on strings, repr()
otherwise. -/
def pyStr : Value → String
  | .str s => s
  | v => pyRepr v

/- ## RuleEngine._soft_eq (evaluator.py lines 418-437) -/

/-- One arm of the coercion in _soft_eq: float(s) == q, with the
ValueError from an unparsable string caught and turned into False. -/
def cmpParse (s : String) (q : Rat) : Bool :=
  match parseFloat s with
  | some p => p == q
  | none => false

/-- RuleEngine._soft_eq: JavaScript-like soft equality.  None equals only
None; a string on one side and a Python number (bool/int/float) on the
other are compared by numerically parsing the string; otherwise the
Python == comparison is used. -/
def softEq (a b : Value) : Bool :=
  match a, b with
  | .null, .null => true
  | .null, _ => false
  | _, .null => false
  | .str s, .bool bb => cmpParse s (if bb then 1 else 0)
  | .str s, .int n => cmpParse s ((n : Rat))
  | .str s, .float q => cmpParse s q
  | .bool bb, .str t => cmpParse t (if bb then 1 else 0)
  | .int n, .str t => cmpParse t ((n : Rat))
  | .float q, .str t => cmpParse t q
  | a, b => pyEq a b

/- ## RuleEngine._compare (evaluator.py lines 439-454) -/

/-- float(v) as used in arithmetic and comparison: booleans and numbers
convert, strings are parsed (ValueError on failure), anything else is a
TypeError. -/
def toFloat : Value → Except PyErr Rat
  | .bool b => .ok (if b then 1 else 0)
  | .int n => .ok ((n : Rat))
  | .float q => .ok q
  | .str s =>
    match parseFloat s with
    | some q => .ok q
    | none => .error .valueError
  | _ => .error .typeError

def toFloats : List Value → Except PyErr (List Rat)
  | [] => .ok []
  | v :: vs => do
    let q ← toFloat v
    let qs ← toFloats vs
    .ok (q :: qs)

/-- RuleEngine._compare: try numeric comparison of float(a) and
float(b); if either conversion raises, fall back to lexicographic
comparison of the str() forms.  Returns -1, 0 or 1 and never raises. -/
def compareVals (a b : Value) : Int :=
  match toFloat a, toFloat b with
  | .ok x, .ok y => if x < y then -1 else if y < x then 1 else 0
  | _, _ =>
    let sa := pyStr a
    let sb := pyStr b
    if sa < sb then -1 else if sb < sa then 1 else 0

/- ## String helpers for the membership and string operators -/

/-- Whether the first list is an initial segment of the second. -/
def leadMatch : List Char → List Char → Bool
  | [], _ => true
  | _ :: _, [] => false
  | c :: cs, d :: ds => c == d && leadMatch cs ds

def hasSubAux (n : List Char) : List Char → Bool
  | [] => n.isEmpty
  | c :: t => leadMatch n (c :: t) || hasSubAux n t

/-- Python substring containment: needle in hay for strings. -/
def hasSub (needle hay : String) : Bool :=
  hasSubAux needle.data hay.data

/- ## The Python builtins min() and max() -/

def minLoop (best : Value) : List Value → Except PyErr Value
  | [] => .ok best
  | x :: rest => do
    let lt ← pyLt x best
    minLoop (if lt then x else best) rest

/-- min(values): ValueError on an empty list, otherwise the leftmost
minimum under the Python < comparison (TypeError on incomparable
values). -/
def pyMin : List Value → Except PyErr Value
  | [] => .error .valueError
  | v :: rest => minLoop v rest

def maxLoop (best : Value) : List Value → Except PyErr Value
  | [] => .ok best
  | x :: rest => do
    let gt ← pyLt best x
    maxLoop (if gt then x else best) rest

/-- max(values): ValueError on an empty list, otherwise the leftmost
maximum. -/
def pyMax : List Value → Except PyErr Value
  | [] => .error .valueError
  | v :: rest => maxLoop v rest

/- ## Python membership: needle in haystack -/

/-- The in operator of RuleEngine._apply_op once the haystack is known
not to be None and not a string: Python element membership.  Membership
in a non-container raises TypeError, as does key lookup of an unhashable
needle in a dict. -/
def pyIn (needle hay : Value) : Except PyErr Value :=
  match hay with
  | .list xs => .ok (.bool (xs.any (fun x => pyEq needle x)))
  | .dict kvs =>
    if hashable needle then .ok (.bool (kvs.any (fun kv => pyEq needle (.str kv.1))))
    else .error .typeError
  | _ => .error .typeError

/- ## RuleEngine._apply_op (evaluator.py lines 298-416) -/

/-- The tail of _apply_op after the logic and comparison blocks
(string/array operators, arithmetic, merge, missing, ternary, and the
final fallthrough to None for an unrecognized operator).

Faithful to the source, including its error behavior:
- the missing branch reads the name data, which is not bound in
  _apply_op (the method signature is (self, op, values)), so a nonempty
  values list raises NameError; an empty comprehension never evaluates
  its condition and yields [];
- the % branch does not guard against a zero divisor, so it raises
  ZeroDivisionError (only / is guarded);
- float() coercions raise ValueError/TypeError on non-numeric input;
- min()/max() raise ValueError on an empty operand list;
- the - branch indexes values[0] without a length guard, so an empty
  operand list raises IndexError. -/
def applyRest (op : String) (values : List Value) : Except PyErr Value :=
  if op = "in" then
    match values with
    | needle :: hay :: _ =>
      match hay with
      | .null => .ok (.bool false)
      | .str s => .ok (.bool (hasSub (pyStr needle).toLower s.toLower))
      | _ => pyIn needle hay
    | _ => .ok (.bool false)
  else if op = "cat" then
    .ok (.str (values.foldl (fun acc v => acc ++ pyStr v) ""))
  else if op = "_contains" then
    match values with
    | v0 :: v1 :: _ =>
      .ok (.bool (if truthy v0 then hasSub (pyStr v1).toLower (pyStr v0).toLower else false))
    | _ => .ok (.bool false)
  else if op = "_startswith" then
    match values with
    | v0 :: v1 :: _ =>
      .ok (.bool (if truthy v0 then (pyStr v0).toLower.startsWith (pyStr v1).toLower else false))
    | _ => .ok (.bool false)
  else if op = "_endswith" then
    match values with
    | v0 :: v1 :: _ =>
      .ok (.bool (if truthy v0 then (pyStr v0).toLower.endsWith (pyStr v1).toLower else false))
    | _ => .ok (.bool false)
  else if op = "_is_empty" then
    let v := values.headD .null
    .ok (.bool (pyIsNull v || pyEq v (.str "") || pyEq v (.list [])))
  else if op = "_is_not_empty" then
    let v := values.headD .null
    .ok (.bool (!pyIsNull v && !pyEq v (.str "") && !pyEq v (.list [])))
  else if op = "+" then
    match values with
    | [v] => do
      let q ← toFloat v
      .ok (.float q)
    | _ => do
      let qs ← toFloats values
      -- sum() of an empty generator is the int 0
      if values.isEmpty then .ok (.int 0)
      else .ok (.float (qs.foldl (fun a b => a + b) 0))
  else if op = "-" then
    match values with
    | [] => .error .indexError
    | [v] => do
      let q ← toFloat v
      .ok (.float (-q))
    | v0 :: rest => do
      let q ← toFloat v0
      let qs ← toFloats rest
      .ok (.float (q - qs.foldl (fun a b => a + b) 0))
  else if op = "*" then
    match values with
    -- result starts as the int 1 and stays int when there are no operands
    | [] => .ok (.int 1)
    | _ => do
      let qs ← toFloats values
      .ok (.float (qs.foldl (fun a b => a * b) 1))
  else if op = "/" then
    match values with
    | a :: b :: _ => do
      let qb ← toFloat b
      if qb ≠ 0 then do
        let qa ← toFloat a
        .ok (.float (qa / qb))
      else .ok (.int 0)
    | _ => .ok (.int 0)
  else if op = "%" then
    match values with
    | a :: b :: _ => do
      let qa ← toFloat a
      let qb ← toFloat b
      if qb = 0 then .error .zeroDivisionError
      else .ok (.float (qa - qb * (⌊qa / qb⌋ : Int)))
    | _ => .ok (.int 0)
  else if op = "min" then pyMin values
  else if op = "max" then pyMax values
  else if op = "merge" then
    .ok (.list (values.foldl
      (fun acc v => match v with
        | .list xs => acc ++ xs
        | w => acc ++ [w]) []))
  else if op = "missing" then
    -- evaluator.py line 408: the comprehension guard references data,
    -- which is not a parameter of _apply_op, so the first element
    -- raises NameError; over an empty list the guard never runs.
    match values with
    | [] => .ok (.list [])
    | _ => .error .nameError
  else if op = "?:" then
    match values with
    | c :: t :: e :: _ => .ok (if truthy c then t else e)
    | _ => .ok .null
  else
    .ok .null

/-- RuleEngine._apply_op: the standard operator table.  Logic operators
first, then the comparison block (only when at least two values are
present; otherwise comparison tokens fall through), then applyRest. -/
def applyOp (op : String) (values : List Value) : Except PyErr Value :=
  if op = "and" then .ok (.bool (values.all truthy))
  else if op = "or" then .ok (.bool (values.any truthy))
  else if op = "!" then
    .ok (.bool (match values with | [] => true | v :: _ => !truthy v))
  else if op = "!!" then
    .ok (.bool (match values with | [] => false | v :: _ => truthy v))
  else
    match values with
    | a :: b :: _ =>
      if op = "==" then .ok (.bool (softEq a b))
      else if op = "===" then .ok (.bool (pyType a == pyType b && pyEq a b))
      else if op = "!=" then .ok (.bool (!softEq a b))
      else if op = "!==" then .ok (.bool (!(pyType a == pyType b && pyEq a b)))
      else if op = ">" then .ok (.bool (decide (compareVals a b > 0)))
      else if op = ">=" then .ok (.bool (decide (compareVals a b ≥ 0)))
      else if op = "<" then .ok (.bool (decide (compareVals a b < 0)))
      else if op = "<=" then .ok (.bool (decide (compareVals a b ≤ 0)))
      else applyRest op values
    | _ => applyRest op values

/- ## RuleEngine._op_var (evaluator.py lines 242-257) -/

def lookupD (kvs : List (String × Value)) (key : String) (dflt : Value) : Value :=
  match kvs with
  | [] => dflt
  | (k, v) :: rest => if k = key then v else lookupD rest key dflt

/-- data.get(key, default): a non-string hashable key never matches a
string-keyed record and yields the default; an unhashable key raises
TypeError. -/
def dictGet (kvs : List (String × Value)) (key dflt : Value) : Except PyErr Value :=
  if hashable key then
    match key with
    | .str s => .ok (lookupD kvs s dflt)
    | _ => .ok dflt
  else .error .typeError

/-- The tail of _op_var once the key operand has been evaluated to vn:
an empty-string or None key returns the whole record; a mapping record
is looked up directly; a non-mapping record yields the default. -/
def varFinish (vn dflt data : Value) : Except PyErr Value :=
  if pyEq vn (.str "") || pyIsNull vn then .ok data
  else
    match data with
    | .dict kvs => dictGet kvs vn dflt
    | _ => .ok dflt

/- ## Operand normalization and the custom-operator registry -/

/-- Operand normalization (evaluator.py lines 219-220): a non-sequence
operand value is wrapped into a one-element list. -/
def normalizeOps : Value → List Value
  | .list os => os
  | v => [v]

/-- The type of a registered custom operator: a function of the list of
already-evaluated operand values and the current record. -/
abbrev OpFn := List Value → Value → Value

/-- The registry self._custom_ops, modelled as an association list where
the most recent registration for a name shadows older ones (matching
Python dict assignment). -/
abbrev CustomOps := List (String × OpFn)

def lookupOp : CustomOps → String → Option OpFn
  | [], _ => none
  | (n, f) :: rest, name => if n = name then some f else lookupOp rest name

/-- RuleEngine.register_operator: store func under name in the
registry. -/
def registerOperator (ops : CustomOps) (name : String) (f : OpFn) : CustomOps :=
  (name, f) :: ops

/- ## Size lemmas for termination of the interpreter -/

theorem sizeOf_mem_normalizeOps {raw x : Value} (h : x ∈ normalizeOps raw) :
    sizeOf x ≤ sizeOf raw := by
  cases raw <;> simp [normalizeOps] at h <;> try (subst h; omega)
  · rename_i os
    have := List.sizeOf_lt_of_mem h
    simp at *
    omega

theorem sizeOf_normalizeOps (raw : Value) :
    sizeOf (normalizeOps raw) ≤ 2 + sizeOf raw := by
  cases raw <;> simp [normalizeOps] <;> omega

theorem sizeOf_mem_normalize_dict {x raw : Value} {op : String}
    {rest : List (String × Value)} (h : x ∈ normalizeOps raw) :
    sizeOf x < sizeOf (Value.dict ((op, raw) :: rest)) := by
  have := sizeOf_mem_normalizeOps h
  simp
  omega

theorem sizeOf_normalize_dict (raw : Value) (op : String)
    (rest : List (String × Value)) :
    sizeOf (normalizeOps raw) < sizeOf (Value.dict ((op, raw) :: rest)) := by
  have := sizeOf_normalizeOps raw
  simp
  omega

/- ## RuleEngine._op_array loop (evaluator.py lines 273-283) -/

/-- The iteration of _op_array over the items of the evaluated array:
the unevaluated condition is evaluated against each item as the new
current record (via the closure evalCond); some short-circuits true on
the first truthy result, all short-circuits false on the first falsy
result, none short-circuits false on the first truthy result; after a
full traversal the result is op != "some". -/
def quantLoopF (evalCond : Value → Except PyErr Value) (op : String) :
    List Value → Except PyErr Value
  | [] => .ok (.bool (op != "some"))
  | it :: rest => do
    let r ← evalCond it
    if op == "some" && truthy r then .ok (.bool true)
    else if op == "all" && !truthy r then .ok (.bool false)
    else if op == "none" && truthy r then .ok (.bool false)
    else quantLoopF evalCond op rest

/- ## RuleEngine._eval (evaluator.py lines 205-240) -/

mutual

/-- RuleEngine._eval: recursively evaluate JsonLogic.  Non-dict input
evaluates to itself; an empty dict is vacuously true; otherwise the
first key dispatches: var / some / all / none / if are special-cased and
receive unevaluated operands, every other operator first evaluates all
operands left to right, then consults the custom registry and finally
the standard table. -/
def evalRule (ops : CustomOps) (rules : Value) (data : Value) :
    Except PyErr Value :=
  match rules with
  | .dict [] => .ok (.bool true)
  | .dict ((op, raw) :: _) =>
    if op = "var" then
      match h1 : normalizeOps raw with
      | [] => .ok data
      | o0 :: restOps => do
        let vn ← evalRule ops o0 data
        varFinish vn (restOps.headD .null) data
    else if op = "some" ∨ op = "all" ∨ op = "none" then
      match h2 : normalizeOps raw with
      | [arrExpr, cond] => do
        let arr ← evalRule ops arrExpr data
        match arr with
        | .list items =>
          if items.isEmpty then .ok (.bool (!(op == "some") && !(op == "all")))
          else quantLoopF (fun it => evalRule ops cond it) op items
        | _ => .ok (.bool (op == "none"))
      | _ => .ok (.bool (op != "some"))
    else if op = "if" then
      evalIfGo ops (normalizeOps raw) data
    else do
      let values ← evalList ops (normalizeOps raw) data
      match lookupOp ops op with
      | some f => .ok (f values data)
      | none => applyOp op values
  | v => .ok v
termination_by sizeOf rules
decreasing_by
  all_goals simp_wf
  · have h := @sizeOf_mem_normalizeOps raw o0 (by rw [h1]; exact List.mem_cons_self _ _)
    omega
  · have h := @sizeOf_mem_normalizeOps raw arrExpr (by rw [h2]; simp)
    omega
  · have h := @sizeOf_mem_normalizeOps raw cond (by rw [h2]; simp)
    omega
  · have h := sizeOf_normalizeOps raw
    omega
  · have h := sizeOf_normalizeOps raw
    omega

/-- Eager left-to-right evaluation of an operand list (evaluator.py
line 233); the first raised exception propagates. -/
def evalList (ops : CustomOps) (rs : List Value) (data : Value) :
    Except PyErr (List Value) :=
  match rs with
  | [] => .ok []
  | r :: rest => do
    let v ← evalRule ops r data
    let vs ← evalList ops rest data
    .ok (v :: vs)
termination_by sizeOf rs
decreasing_by
  all_goals simp_wf
  all_goals omega

/-- RuleEngine._op_if (evaluator.py lines 285-296): walk the operands in
(condition, value) pairs, returning the evaluation of the value paired
with the first truthy condition; a trailing odd operand is the else
branch; with no operands left the result is None. -/
def evalIfGo (ops : CustomOps) (operands : List Value) (data : Value) :
    Except PyErr Value :=
  match operands with
  | c :: v :: rest => do
    let r ← evalRule ops c data
    if truthy r then evalRule ops v data else evalIfGo ops rest data
  | [e] => evalRule ops e data
  | [] => .ok .null
termination_by sizeOf operands
decreasing_by
  all_goals simp_wf
  all_goals omega

end

/-- The module-level evaluate convenience function: a default engine
with an empty custom-operator registry. -/
def evaluate (rules data : Value) : Except PyErr Value :=
  evalRule [] rules data

/-- The loop of _op_array for a given engine, specialized from
quantLoopF. -/
def quantLoop (ops : CustomOps) (op : String) (cond : Value)
    (items : List Value) : Except PyErr Value :=
  quantLoopF (fun it => evalRule ops cond it) op items

/- ## core.py: the Dependencies aggregate (lines 46-72) -/

@[ext]
structure Dependencies where
  fields : Finset String
  tag_ids : Finset Int
  phonebook_ids : Finset Int
  custom_field_ids : Finset Int

/-- Dependencies(): the constructor initializes four empty sets. -/
def Dependencies.empty : Dependencies := ⟨∅, ∅, ∅, ∅⟩

/-- Dependencies.merge: returns a new Dependencies whose four sets are
the pairwise unions of the two arguments. -/
def Dependencies.merge (a b : Dependencies) : Dependencies :=
  ⟨a.fields ∪ b.fields, a.tag_ids ∪ b.tag_ids,
   a.phonebook_ids ∪ b.phonebook_ids, a.custom_field_ids ∪ b.custom_field_ids⟩

/- ## Helper lemmas -/

/-- Non-dict input evaluates to itself (evaluator.py lines 207-209). -/
theorem evalRule_leaf (ops : CustomOps) (data : Value) :
    ∀ v : Value, (∀ kvs, v ≠ .dict kvs) → evalRule ops v data = .ok v := by
  intro v h
  cases v
  case dict kvs => exact absurd rfl (h kvs)
  all_goals simp [evalRule]

/-- The vocabulary of operator tokens handled anywhere in _eval or
_apply_op; any other token falls through every branch. -/
def stdTokens : List String :=
  ["var", "some", "all", "none", "if", "and", "or", "!", "!!",
   "==", "===", "!=", "!==", ">", ">=", "<", "<=",
   "in", "cat", "_contains", "_startswith", "_endswith", "_is_empty", "_is_not_empty",
   "+", "-", "*", "/", "%", "min", "max", "merge", "missing", "?:"]

/-- A token outside the standard vocabulary falls through every branch
of _apply_op and yields None. -/
theorem applyOp_unknown {op : String} (h : op ∉ stdTokens) (values : List Value) :
    applyOp op values = .ok .null := by
  simp only [stdTokens, List.mem_cons, List.not_mem_nil, or_false, not_or] at h
  obtain ⟨-, -, -, -, -, q6, q7, q8, q9, q10, q11, q12, q13, q14, q15, q16, q17,
    q18, q19, q20, q21, q22, q23, q24, q25, q26, q27, q28, q29, q30, q31, q32, q33, q34⟩ := h
  rcases values with _ | ⟨a, _ | ⟨b, t⟩⟩ <;>
    simp [applyOp, applyRest, q6, q7, q8, q9, q10, q11, q12, q13, q14, q15, q16, q17,
      q18, q19, q20, q21, q22, q23, q24, q25, q26, q27, q28, q29, q30, q31, q32, q33, q34]

/- ## C9 -/

/-- C9: Dependencies.merge returns a new Dependencies whose four sets
are the pairwise unions of its arguments, and merge is associative,
commutative, and has the freshly constructed empty Dependencies (four
empty sets) as a right identity. -/
theorem c9_merge_algebra :
    (∀ a b : Dependencies, a.merge b =
      ⟨a.fields ∪ b.fields, a.tag_ids ∪ b.tag_ids,
       a.phonebook_ids ∪ b.phonebook_ids, a.custom_field_ids ∪ b.custom_field_ids⟩) ∧
    (∀ a b c : Dependencies, (a.merge b).merge c = a.merge (b.merge c)) ∧
    (∀ a b : Dependencies, a.merge b = b.merge a) ∧
    (∀ a : Dependencies, a.merge Dependencies.empty = a) := by
  refine ⟨fun a b => rfl, fun a b c => ?_, fun a b => ?_, fun a => ?_⟩
  · simp [Dependencies.merge, Finset.union_assoc]
  · simp [Dependencies.merge, Finset.union_comm]
  · obtain ⟨f, t, p, c⟩ := a
    simp [Dependencies.merge, Dependencies.empty]

/- ## C2 -/

/-- C2 counterexample: against the claim that every operator-shaped
input with an empty operand list evaluates to true, an empty or-node
evaluates to any([]) which is false. -/
theorem c2_or_empty_counterexample :
    evaluate (.dict [("or", .list [])]) (.dict []) = .ok (.bool false) ∧
    (Except.ok (Value.bool false) : Except PyErr Value) ≠ .ok (.bool true) := by
  constructor
  · simp [evaluate, evalRule, normalizeOps, evalList, lookupOp, applyOp, Bind.bind, Except.bind]
  · simp

/-- C2 (amended): an empty and-node evaluates to true (all of no
values) and the empty mapping evaluates to true, but an empty or-node
evaluates to false (any of no values): only the empty-mapping base case
is uniformly true, not every operator with an empty operand list. -/
theorem c2_empty_operands_amended : ∀ data : Value,
    evaluate (.dict [("and", .list [])]) data = .ok (.bool true) ∧
    evaluate (.dict [("or", .list [])]) data = .ok (.bool false) ∧
    evaluate (.dict []) data = .ok (.bool true) := by
  intro data
  refine ⟨?_, ?_, ?_⟩ <;>
    simp [evaluate, evalRule, normalizeOps, evalList, lookupOp, applyOp, Bind.bind, Except.bind]

/- ## C10 -/

/-- C10: for a some/all/none node whose normalized operand list does not
have length exactly two, the result is determined by the operator name
alone (false for some, true for all and none), for every registry,
record and operand value. -/
theorem c10_quant_arity : ∀ (ops : CustomOps) (data : Value) (op : String) (raw : Value),
    (op = "some" ∨ op = "all" ∨ op = "none") →
    (normalizeOps raw).length ≠ 2 →
    evalRule ops (.dict [(op, raw)]) data = .ok (.bool (op != "some")) := by
  intro ops data op raw hop hlen
  rcases hop with h | h | h <;> subst h <;>
    rcases hnf : normalizeOps raw with _ | ⟨a, _ | ⟨c, _ | ⟨d, t⟩⟩⟩ <;>
      first
        | (exfalso; apply hlen; rw [hnf]; rfl)
        | simp [evalRule, hnf]

/-- Witness for C10 at concrete inputs. -/
theorem c10_quant_arity_witness :
    evaluate (.dict [("all", .list [.int 7])]) (.dict []) = .ok (.bool true) ∧
    evaluate (.dict [("some", .list [])]) (.dict []) = .ok (.bool false) := by
  constructor
  · have h := c10_quant_arity [] (.dict []) "all" (.list [.int 7]) (by simp)
      (by simp [normalizeOps])
    simpa [evaluate] using h
  · have h := c10_quant_arity [] (.dict []) "some" (.list []) (by simp)
      (by simp [normalizeOps])
    simpa [evaluate] using h

/- ## C3 -/

/-- C3 counterexample: the claim says all over an empty sequence returns
true, but _op_array returns op != some and op != all before the loop, so
an all-node whose first operand evaluates to the empty list evaluates to
false. -/
theorem c3_all_empty_counterexample :
    evaluate (.dict [("all", .list [.list [], .bool true])]) (.dict []) = .ok (.bool false) ∧
    (Except.ok (Value.bool false) : Except PyErr Value) ≠ .ok (.bool true) := by
  constructor
  · simp [evaluate, evalRule, normalizeOps, Bind.bind, Except.bind]
  · simp

/-- C3 (amended): for some/all/none with exactly two operands, an empty
evaluated sequence yields false for some, false for all and true for
none; a non-sequence yields true only for none; otherwise the condition
is evaluated against each item as the new current record with
short-circuiting (some true on first truthy, all false on first falsy,
none false on first truthy, with fallthrough op != some). -/
theorem c3_quantifiers_amended :
    ∀ (ops : CustomOps) (a c data : Value) (op : String),
    (op = "some" ∨ op = "all" ∨ op = "none") →
    ((evalRule ops a data = .ok (.list []) →
        evalRule ops (.dict [(op, .list [a, c])]) data = .ok (.bool (op == "none"))) ∧
     (∀ v, evalRule ops a data = .ok v → (∀ xs, v ≠ .list xs) →
        evalRule ops (.dict [(op, .list [a, c])]) data = .ok (.bool (op == "none"))) ∧
     (∀ items, evalRule ops a data = .ok (.list items) → items ≠ [] →
        evalRule ops (.dict [(op, .list [a, c])]) data = quantLoop ops op c items) ∧
     (quantLoop ops op c [] = .ok (.bool (op != "some"))) ∧
     (∀ item rest r, evalRule ops c item = .ok r →
        quantLoop ops op c (item :: rest) =
          (if op == "some" && truthy r then .ok (.bool true)
           else if op == "all" && !truthy r then .ok (.bool false)
           else if op == "none" && truthy r then .ok (.bool false)
           else quantLoop ops op c rest))) := by
  intro ops a c data op hop
  refine ⟨?_, ?_, ?_, ?_, ?_⟩
  · intro hv
    rcases hop with h | h | h <;> subst h <;>
      simp [evalRule, normalizeOps, hv, Bind.bind, Except.bind]
  · intro v hv hne
    rcases hop with h | h | h <;> subst h <;>
      (cases v
       case list xs => exact absurd rfl (hne xs)
       all_goals simp [evalRule, normalizeOps, hv, Bind.bind, Except.bind])
  · intro items hv hne
    have hemp : items.isEmpty = false := by
      cases items
      · exact absurd rfl hne
      · rfl
    rcases hop with h | h | h <;> subst h <;>
      simp [evalRule, normalizeOps, hv, hemp, quantLoop, Bind.bind, Except.bind]
  · simp [quantLoop, quantLoopF]
  · intro item rest r hr
    simp [quantLoop, quantLoopF, hr, Bind.bind, Except.bind]

/-- Witness for C3 at concrete inputs: none over a non-sequence is true,
some over an empty sequence is false. -/
theorem c3_quantifiers_witness :
    evaluate (.dict [("none", .list [.int 5, .bool true])]) (.dict []) = .ok (.bool true) ∧
    evaluate (.dict [("some", .list [.list [], .bool true])]) (.dict []) = .ok (.bool false) := by
  constructor
  · have h := (c3_quantifiers_amended [] (.int 5) (.bool true) (.dict []) "none"
      (by simp)).2.1 (.int 5) (by simp [evalRule]) (by intro xs; simp)
    simpa [evaluate] using h
  · have h := (c3_quantifiers_amended [] (.list []) (.bool true) (.dict []) "some"
      (by simp)).1 (by simp [evalRule])
    simpa [evaluate] using h

/- ## C4 -/

/-- C4 counterexample: a single-key mapping with an unrecognized,
unregistered key evaluates to null (not to itself), and a mapping with
two keys is dispatched on its first key (also yielding null here), not
returned unchanged. -/
theorem c4_literal_counterexample :
    evaluate (.dict [("frobnicate", .int 1)]) (.dict []) = .ok .null ∧
    evaluate (.dict [("a", .int 1), ("b", .int 2)]) (.dict []) = .ok .null ∧
    (Except.ok Value.null : Except PyErr Value) ≠
      .ok (.dict [("frobnicate", .int 1)]) ∧
    (Except.ok Value.null : Except PyErr Value) ≠
      .ok (.dict [("a", .int 1), ("b", .int 2)]) := by
  refine ⟨?_, ?_, by simp, by simp⟩ <;>
    simp [evaluate, evalRule, normalizeOps, evalList, lookupOp, applyOp, applyRest,
      Bind.bind, Except.bind]

/-- C4 (amended): non-mapping input evaluates to itself and the empty
mapping to true, but every nonempty mapping is dispatched on its first
key regardless of how many keys it has, and a single-key mapping whose
key is neither a standard token nor registered evaluates its operands
and returns null - it is not preserved as a literal. -/
theorem c4_dispatch_amended : ∀ (ops : CustomOps) (data : Value),
    (∀ v : Value, (∀ kvs, v ≠ .dict kvs) → evalRule ops v data = .ok v) ∧
    (evalRule ops (.dict []) data = .ok (.bool true)) ∧
    (∀ (op : String) (raw : Value) (rest : List (String × Value)),
        evalRule ops (.dict ((op, raw) :: rest)) data =
          evalRule ops (.dict [(op, raw)]) data) ∧
    (∀ (op : String) (raw : Value) (values : List Value), op ∉ stdTokens →
        lookupOp ops op = none →
        evalList ops (normalizeOps raw) data = .ok values →
        evalRule ops (.dict [(op, raw)]) data = .ok .null) := by
  intro ops data
  refine ⟨evalRule_leaf ops data, by simp [evalRule], ?_, ?_⟩
  · intro op raw rest
    simp only [evalRule]
  · intro op raw values hmem hlk hev
    have hv : op ≠ "var" := fun e => hmem (by rw [e]; simp [stdTokens])
    have hs : op ≠ "some" := fun e => hmem (by rw [e]; simp [stdTokens])
    have ha : op ≠ "all" := fun e => hmem (by rw [e]; simp [stdTokens])
    have hn : op ≠ "none" := fun e => hmem (by rw [e]; simp [stdTokens])
    have hi : op ≠ "if" := fun e => hmem (by rw [e]; simp [stdTokens])
    simp [evalRule, hv, hs, ha, hn, hi, hlk, hev, applyOp_unknown hmem,
      Bind.bind, Except.bind]

/-- Witness for C4 at a concrete input: an unrecognized single-key
mapping with an already-evaluated operand evaluates to null. -/
theorem c4_dispatch_witness :
    evaluate (.dict [("regex_match", .list [.str "x"])]) (.dict []) = .ok .null := by
  have h := (c4_dispatch_amended [] (.dict [])).2.2.2 "regex_match" (.list [.str "x"])
    [.str "x"] (by simp [stdTokens]) (by simp [lookupOp])
    (by simp [normalizeOps, evalList, evalRule, Bind.bind, Except.bind])
  simpa [evaluate] using h

/- ## C5 -/

/-- C5 counterexample: when the evaluated key is an unhashable value
(here the empty list) and the record is a mapping, data.get raises
TypeError instead of returning the default. -/
theorem c5_var_unhashable_counterexample :
    evaluate (.dict [("var", .list [.list []])]) (.dict []) = .error .typeError ∧
    (Except.error PyErr.typeError : Except PyErr Value) ≠ .ok .null := by
  constructor
  · simp [evaluate, evalRule, normalizeOps, varFinish, pyEq, pyIsNull, dictGet, hashable,
      Bind.bind, Except.bind]
  · simp

/-- C5 (amended): var with zero operands returns the whole record; with
operands, the first operand is evaluated against the current record to
obtain a key and the unevaluated second operand (or null) is the
default; an empty-string or null key returns the whole record; on a
mapping record a hashable key is looked up directly (a non-string
hashable key never matches and yields the default) while an unhashable
key raises TypeError; on a non-mapping record the default is
returned. -/
theorem c5_var_amended : ∀ (ops : CustomOps) (data : Value),
    (evalRule ops (.dict [("var", .list [])]) data = .ok data) ∧
    (∀ (o0 : Value) (restOps : List Value) (vn : Value),
        evalRule ops o0 data = .ok vn →
        evalRule ops (.dict [("var", .list (o0 :: restOps))]) data =
          varFinish vn (restOps.headD .null) data) ∧
    (∀ dflt, varFinish .null dflt data = .ok data) ∧
    (∀ vn dflt, pyEq vn (.str "") = true → varFinish vn dflt data = .ok data) ∧
    (∀ (s : String) (dflt : Value) (kvs : List (String × Value)), s ≠ "" →
        varFinish (.str s) dflt (.dict kvs) = .ok (lookupD kvs s dflt)) ∧
    (∀ vn dflt, pyIsNull vn = false → pyEq vn (.str "") = false →
        hashable vn = true → isStr vn = false →
        (∀ kvs, varFinish vn dflt (.dict kvs) = .ok dflt)) ∧
    (∀ vn dflt, pyIsNull vn = false → pyEq vn (.str "") = false →
        (∀ kvs, data ≠ .dict kvs) → varFinish vn dflt data = .ok dflt) ∧
    (∀ vn dflt (kvs : List (String × Value)), hashable vn = false →
        varFinish vn dflt (.dict kvs) = .error .typeError) := by
  intro ops data
  refine ⟨by simp [evalRule, normalizeOps], ?_, ?_, ?_, ?_, ?_, ?_, ?_⟩
  · intro o0 restOps vn hv
    simp [evalRule, normalizeOps, hv, Bind.bind, Except.bind]
  · intro dflt
    simp [varFinish, pyIsNull]
  · intro vn dflt h
    simp [varFinish, h]
  · intro s dflt kvs hs
    simp [varFinish, pyEq, pyIsNull, dictGet, hashable, hs]
  · intro vn dflt h0 h1 h2 h3 kvs
    cases vn <;> simp_all [varFinish, pyIsNull, isStr, hashable, dictGet]
  · intro vn dflt h0 h1 hnd
    cases data
    case dict kvs => exact absurd rfl (hnd kvs)
    all_goals simp [varFinish, h0, h1]
  · intro vn dflt kvs h
    cases vn <;> simp_all [varFinish, pyEq, pyIsNull, hashable, dictGet]

/-- Witness for C5 at a concrete input: a present key is looked up
directly on the record. -/
theorem c5_var_witness :
    evaluate (.dict [("var", .list [.str "age", .int 99])])
      (.dict [("age", .int 25)]) = .ok (.int 25) := by
  have h := c5_var_amended [] (.dict [("age", .int 25)])
  rw [evaluate, h.2.1 (.str "age") [.int 99] (.str "age") (by simp [evalRule])]
  simpa [lookupD] using
    h.2.2.2.2.1 "age" ((([] : List Value).headD .null)) [("age", .int 25)] (by simp)

/- ## C6 -/

/-- C6: the if operator walks its operands as (condition, value) pairs
in order, evaluates conditions until one is truthy and returns the
evaluation of the paired value; an odd trailing operand is the else
result; with none left the result is null; untaken branch operands never
influence the result (the selected equation does not mention them). -/
theorem c6_if_pairs : ∀ (ops : CustomOps) (data : Value),
    (∀ operands : List Value,
        evalRule ops (.dict [("if", .list operands)]) data = evalIfGo ops operands data) ∧
    (evalIfGo ops [] data = .ok .null) ∧
    (∀ e, evalIfGo ops [e] data = evalRule ops e data) ∧
    (∀ (c v : Value) (rest : List Value) (r : Value),
        evalRule ops c data = .ok r → truthy r = true →
        evalIfGo ops (c :: v :: rest) data = evalRule ops v data) ∧
    (∀ (c v : Value) (rest : List Value) (r : Value),
        evalRule ops c data = .ok r → truthy r = false →
        evalIfGo ops (c :: v :: rest) data = evalIfGo ops rest data) := by
  intro ops data
  refine ⟨?_, by simp [evalIfGo], by intro e; simp [evalIfGo], ?_, ?_⟩
  · intro operands
    simp [evalRule, normalizeOps]
  · intro c v rest r hc ht
    simp [evalIfGo, hc, ht, Bind.bind, Except.bind]
  · intro c v rest r hc ht
    simp [evalIfGo, hc, ht, Bind.bind, Except.bind]

/-- Witness for C6: a true condition selects its branch and the untaken
else branch (which would raise ZeroDivisionError if evaluated) is never
evaluated. -/
theorem c6_if_pairs_witness :
    evaluate (.dict [("if",
      .list [.bool true, .int 1, .dict [("%", .list [.int 1, .int 0])]])])
      (.dict []) = .ok (.int 1) := by
  have h := c6_if_pairs [] (.dict [])
  rw [evaluate, h.1]
  rw [h.2.2.2.1 (.bool true) (.int 1) [.dict [("%", .list [.int 1, .int 0])]]
    (.bool true) (by simp [evalRule]) (by simp [truthy])]
  simp [evalRule]

/- ## C7 -/

def constOp42 : OpFn := fun _ _ => .int 42

/-- C7 counterexample: registering a custom operator under the name var
does not override the standard var behavior, because _eval dispatches
the special operators var/some/all/none/if before consulting the
custom-operator registry: the lookup result 7 is returned, not the
registered constant 42. -/
theorem c7_var_override_counterexample :
    evalRule (registerOperator [] "var" constOp42)
      (.dict [("var", .str "x")]) (.dict [("x", .int 7)]) = .ok (.int 7) ∧
    (Except.ok (Value.int 7) : Except PyErr Value) ≠ .ok (.int 42) := by
  constructor
  · simp [evalRule, normalizeOps, varFinish, pyEq, pyIsNull, dictGet, hashable, lookupD,
      Bind.bind, Except.bind]
  · simp

/-- C7 (amended): the registry is consulted before the standard operator
table but after the special control operators: a registered name other
than var/some/all/none/if is invoked with the already-evaluated operand
values and the current record and its result returned verbatim (so it
overrides any standard-table token of the same name), while nodes headed
by the five control names follow the control semantics for every
registry. -/
theorem c7_registry_amended :
    (∀ (ops : CustomOps) (name : String) (f : OpFn) (raw : Value) (data : Value)
        (values : List Value),
        name ≠ "var" → name ≠ "some" → name ≠ "all" → name ≠ "none" → name ≠ "if" →
        lookupOp ops name = some f →
        evalList ops (normalizeOps raw) data = .ok values →
        evalRule ops (.dict [(name, raw)]) data = .ok (f values data)) ∧
    (∀ (ops : CustomOps) (data : Value),
        evalRule ops (.dict [("var", .list [])]) data = .ok data) ∧
    (∀ (ops : CustomOps) (data : Value),
        evalRule ops (.dict [("some", .list [])]) data = .ok (.bool false)) ∧
    (∀ (ops : CustomOps) (data : Value),
        evalRule ops (.dict [("all", .list [])]) data = .ok (.bool true)) ∧
    (∀ (ops : CustomOps) (data : Value),
        evalRule ops (.dict [("none", .list [])]) data = .ok (.bool true)) ∧
    (∀ (ops : CustomOps) (data : Value),
        evalRule ops (.dict [("if", .list [])]) data = .ok .null) := by
  refine ⟨?_, ?_, ?_, ?_, ?_, ?_⟩
  · intro ops name f raw data values hv hs ha hn hi hlk hev
    simp [evalRule, hv, hs, ha, hn, hi, hlk, hev, Bind.bind, Except.bind]
  all_goals intro ops data
  all_goals simp [evalRule, normalizeOps, evalIfGo]

/-- Witness for C7: a custom operator registered under the standard
token and overrides the standard conjunction. -/
theorem c7_registry_witness :
    evalRule (registerOperator [] "and" (fun _ _ => Value.int 42))
      (.dict [("and", .list [])]) (.dict []) = .ok (.int 42) := by
  have h := c7_registry_amended.1 (registerOperator [] "and" (fun _ _ => Value.int 42))
    "and" (fun _ _ => Value.int 42) (.list []) (.dict []) []
    (by decide) (by decide) (by decide) (by decide) (by decide)
    (by simp [registerOperator, lookupOp]) (by simp [normalizeOps, evalList])
  simpa using h

/- ## C8 -/

/-- C8: soft equality: null equals only null; a string on one side and a
Python number on the other is numerically parsed and compared, with
parse failure giving inequality; otherwise the direct Python equality is
used; strict equality additionally requires the identical underlying
runtime type; and the two cited evaluations hold. -/
theorem c8_soft_strict_equality :
    (softEq .null .null = true) ∧
    (∀ a : Value, a ≠ .null → softEq a .null = false ∧ softEq .null a = false) ∧
    (∀ (s : String) (b : Value) (q : Rat), isPyNum b = true → parseFloat s = some q →
        softEq (.str s) b = (q == (numValue? b).getD 0) ∧
        softEq b (.str s) = (q == (numValue? b).getD 0)) ∧
    (∀ (s : String) (b : Value), isPyNum b = true → parseFloat s = none →
        softEq (.str s) b = false ∧ softEq b (.str s) = false) ∧
    (∀ a b : Value, a ≠ .null → b ≠ .null →
        ¬(isStr a = true ∧ isPyNum b = true) → ¬(isStr b = true ∧ isPyNum a = true) →
        softEq a b = pyEq a b) ∧
    (∀ (a b : Value) (rest : List Value),
        applyOp "==" (a :: b :: rest) = .ok (.bool (softEq a b))) ∧
    (∀ (a b : Value) (rest : List Value),
        applyOp "===" (a :: b :: rest) = .ok (.bool (pyType a == pyType b && pyEq a b))) ∧
    (evaluate (.dict [("==", .list [.dict [("var", .str "age")], .str "25"])])
        (.dict [("age", .int 25)]) = .ok (.bool true)) ∧
    (evaluate (.dict [("===", .list [.dict [("var", .str "age")], .str "25"])])
        (.dict [("age", .int 25)]) = .ok (.bool false)) := by
  refine ⟨rfl, ?_, ?_, ?_, ?_, ?_, ?_, ?_, ?_⟩
  · intro a h
    cases a <;> simp_all [softEq]
  · intro s b q hb hq
    cases b <;> simp_all [softEq, cmpParse, isPyNum, numValue?]
  · intro s b hb hq
    cases b <;> simp_all [softEq, cmpParse, isPyNum]
  · intro a b ha hb hab hba
    cases a <;> cases b <;> simp_all [softEq, isStr, isPyNum]
  · intro a b rest
    simp [applyOp]
  · intro a b rest
    simp [applyOp]
  · simp [evaluate, evalRule, normalizeOps, evalList, lookupOp, applyOp, Bind.bind,
      Except.bind, varFinish, dictGet, lookupD, pyEq, pyIsNull, hashable, softEq, cmpParse]
    decide
  · simp [evaluate, evalRule, normalizeOps, evalList, lookupOp, applyOp, Bind.bind,
      Except.bind, varFinish, dictGet, lookupD, pyEq, pyIsNull, hashable, pyType]

/-- Witness for C8: the coercion cases applied at concrete inputs. -/
theorem c8_soft_strict_equality_witness :
    softEq (.str "25") (.int 25) = true ∧
    softEq (.str "abc") (.int 25) = false ∧
    softEq (.str "5") (.list []) = pyEq (.str "5") (.list []) := by
  refine ⟨?_, ?_, ?_⟩
  · have h := (c8_soft_strict_equality.2.2.1 "25" (.int 25) 25 (by decide) (by decide)).1
    simpa [numValue?] using h
  · exact (c8_soft_strict_equality.2.2.2.1 "abc" (.int 25) (by decide) (by decide)).1
  · exact c8_soft_strict_equality.2.2.2.2.1 (.str "5") (.list [])
      (by simp) (by simp) (by simp [isPyNum]) (by simp [isStr])

/- ## C1 -/

/-- C1: evaluation does raise on standard operators, contradicting the
never-raises design: the missing operator references the unbound name
data inside _apply_op (NameError), and the modulo operator is not
guarded against a zero divisor (ZeroDivisionError); the division-by-zero
case itself is guarded and yields 0 as documented. -/
theorem c1_apply_op_raises :
    evaluate (.dict [("missing", .list [.str "phone"])]) (.dict []) = .error .nameError ∧
    evaluate (.dict [("%", .list [.int 1, .int 0])]) (.dict []) = .error .zeroDivisionError ∧
    evaluate (.dict [("/", .list [.int 1, .int 0])]) (.dict []) = .ok (.int 0) := by
  refine ⟨?_, ?_, ?_⟩ <;>
    simp [evaluate, evalRule, normalizeOps, evalList, lookupOp, applyOp, applyRest,
      toFloat, toFloats, Bind.bind, Except.bind]
